import Mathlib

/-!
Verification of the directory-scaffolding scripts `create_dirs.py`,
`create_structure.py` and `create_test_dirs.py`.

Each script joins a hard-coded Windows base path with a hard-coded list of
relative paths, calls `os.makedirs(full_path, exist_ok=True)` on each in
sequence, printing one `Created: <path>` line per entry, and finally prints a
summary line.  `create_structure.py` wraps the loop in
`try: ... sys.exit(0) / except Exception: print Error, sys.exit(1)`; the other
two scripts let any exception propagate.

The filesystem is modelled as two lists of component-paths: the set of
existing directories and the set of existing non-directory files.  A path
string such as `src\main\java` is split on the backslash separator into its
components, mirroring `os.path.join` on Windows, which concatenates with the
backslash.  `os.makedirs(p, exist_ok=True)` is modelled as walking the
nonempty prefixes of `p` from shortest to longest, creating each missing one
as a directory, succeeding silently on prefixes that already are directories,
and raising (a `FileExistsError` on Windows) at the first prefix occupied by a
non-directory file — leaving the ancestors created so far in place, exactly as
the real primitive does.  The OS error-message text is modelled abstractly as
`FileExistsError: <path>`; only its presence and propagation matter to the
claims, never its exact wording.
-/

/-- A component-path: the list of path components, e.g.
`["C:", "Users", "anupa"]` for the string `C:\Users\anupa`. -/
abbrev CPath := List String

/-- The filesystem state: which component-paths currently exist as
directories, and which exist as non-directory files.  Nothing else about the
host filesystem is observable to the scripts. -/
structure FS where
  dirs : List CPath
  files : List CPath
deriving DecidableEq, Repr

/-- Split a character list into path components at each backslash; the
worker behind `splitPath`, written by structural recursion so that concrete
paths evaluate inside the kernel. -/
def splitPathAux : List Char → List Char → CPath
  | [], acc => [String.mk acc.reverse]
  | c :: cs, acc =>
    if c = '\x5c' then String.mk acc.reverse :: splitPathAux cs []
    else splitPathAux cs (c :: acc)

/-- Split a path string into its components on the Windows separator,
mirroring how the raw-string literals in the scripts are structured
(`s.split('\x5c')` semantics). -/
def splitPath (s : String) : CPath :=
  splitPathAux s.data []

/-- Join components back with the Windows separator, as `os.path.join` does
on Windows; used to render the paths appearing in printed lines. -/
def joinPath (p : CPath) : String :=
  String.intercalate "\x5c" p

/-- The nonempty prefixes of a component-path, shortest first: the chain of
ancestors `os.makedirs` creates on the way to the full path. -/
def ancestors (p : CPath) : List CPath :=
  (List.range p.length).map (fun i => p.take (i + 1))

/-- One step of `os.makedirs`: ensure a single component-path exists as a
directory.  A path occupied by a file raises; an existing directory is
accepted silently (`exist_ok=True` / implicit for intermediate segments); a
missing path is created. -/
def mkdirStep (fs : FS) (q : CPath) : FS × Option String :=
  if q ∈ fs.files then
    (fs, some ("FileExistsError: " ++ joinPath q))
  else if q ∈ fs.dirs then
    (fs, none)
  else
    ({ fs with dirs := fs.dirs ++ [q] }, none)

/-- Walk a list of component-paths in order, ensuring each; stop at the first
failure, keeping the directories created so far (as `os.makedirs` does). -/
def makedirsAux (fs : FS) : List CPath → FS × Option String
  | [] => (fs, none)
  | q :: qs =>
    match mkdirStep fs q with
    | (fs', none) => makedirsAux fs' qs
    | (fs', some e) => (fs', some e)

/-- Model of `os.makedirs(p, exist_ok=True)`: create every missing ancestor
of `p` and `p` itself, failing at the first segment occupied by a file. -/
def makedirs (fs : FS) (p : CPath) : FS × Option String :=
  makedirsAux fs (ancestors p)

/-- The console line printed after each successful `os.makedirs` call:
`print(f'Created: {full_path}')`. -/
def createdLine (p : CPath) : String :=
  "Created: " ++ joinPath p

/-- Result of running the shared directory loop: the final filesystem, the
printed lines, and the error of the first failing entry, if any. -/
structure LoopResult where
  fs : FS
  out : List String
  err : Option String
deriving DecidableEq, Repr

/-- The loop shared by all three scripts:
`for directory in directories: full_path = os.path.join(base_path, directory);
os.makedirs(full_path, exist_ok=True); print(f'Created: {full_path}')`.
Entries are processed strictly in list order; the first failure aborts the
loop before printing that entry's line. -/
def runLoop (base : CPath) (fs : FS) : List String → LoopResult
  | [] => ⟨fs, [], none⟩
  | d :: ds =>
    let p := base ++ splitPath d
    let r := makedirs fs p
    match r.2 with
    | some m => ⟨r.1, [], some m⟩
    | none =>
      let rest := runLoop base r.1 ds
      ⟨rest.fs, createdLine p :: rest.out, rest.err⟩

/-- `base_path = r'C:\Users\anupa\copilot-hackathon'`, common to all three
scripts. -/
def base_path : String := "C:\x5cUsers\x5canupa\x5ccopilot-hackathon"

/-- The `directories` list of `create_dirs.py` and `create_structure.py`. -/
def directories : List String := [
  "src\x5cmain\x5cjava\x5ccom\x5chackathon\x5capp",
  "src\x5cmain\x5cjava\x5ccom\x5chackathon\x5capp\x5ccontroller",
  "src\x5cmain\x5cjava\x5ccom\x5chackathon\x5capp\x5cservice",
  "src\x5cmain\x5cjava\x5ccom\x5chackathon\x5capp\x5crepository",
  "src\x5cmain\x5cjava\x5ccom\x5chackathon\x5capp\x5centity",
  "src\x5cmain\x5cjava\x5ccom\x5chackathon\x5capp\x5cdto",
  "src\x5cmain\x5cjava\x5ccom\x5chackathon\x5capp\x5csecurity",
  "src\x5cmain\x5cjava\x5ccom\x5chackathon\x5capp\x5cexception",
  "src\x5cmain\x5cresources",
  "src\x5ctest\x5cjava\x5ccom\x5chackathon\x5capp",
  ".github\x5cworkflows"]

/-- The `test_directories` list of `create_test_dirs.py`. -/
def test_directories : List String := [
  "src\x5ctest\x5cjava\x5ccom\x5chackathon\x5capp\x5ccontroller",
  "src\x5ctest\x5cjava\x5ccom\x5chackathon\x5capp\x5cservice",
  "src\x5ctest\x5cjava\x5ccom\x5chackathon\x5capp\x5crepository"]

/-- How a script run terminates: normal fall-through off the end of the file,
an explicit `sys.exit(n)`, or an unhandled exception (traceback, non-zero
process status). -/
inductive ExitBehavior
  | fallThrough
  | exitCode (n : Nat)
  | uncaught (msg : String)
deriving DecidableEq, Repr

/-- The observable outcome of one script run: final filesystem, console
output lines, and termination behavior. -/
structure RunResult where
  fs : FS
  output : List String
  exit : ExitBehavior
deriving DecidableEq, Repr

/-- The summary line of `create_dirs.py`:
`print('\nDirectory structure created successfully!')`. -/
def summaryDirs : String := "\nDirectory structure created successfully!"

/-- The summary line of `create_test_dirs.py`:
`print('\nTest subdirectories created!')`. -/
def summaryTestDirs : String := "\nTest subdirectories created!"

/-- The directory loop of `create_dirs.py` / `create_structure.py` on a given
initial filesystem. -/
def loopMain (fs : FS) : LoopResult :=
  runLoop (splitPath base_path) fs directories

/-- The directory loop of `create_test_dirs.py` on a given initial
filesystem. -/
def loopTest (fs : FS) : LoopResult :=
  runLoop (splitPath base_path) fs test_directories

/-- `create_dirs.py`: run the loop unguarded; on success print the summary
and fall off the end of the script; on failure the exception propagates as a
traceback. -/
def create_dirs_run (fs : FS) : RunResult :=
  let r := loopMain fs
  match r.err with
  | none => ⟨r.fs, r.out ++ [summaryDirs], .fallThrough⟩
  | some m => ⟨r.fs, r.out, .uncaught m⟩

/-- `create_structure.py`: run the loop inside `try`; on success print the
summary and `sys.exit(0)` — the `SystemExit` raised by `sys.exit(0)` derives
from `BaseException`, not `Exception`, so the `except Exception` handler does
not intercept it and the process exits with status 0; on failure print
`Error: <message>` and `sys.exit(1)`. -/
def create_structure_run (fs : FS) : RunResult :=
  let r := loopMain fs
  match r.err with
  | none => ⟨r.fs, r.out ++ [summaryDirs], .exitCode 0⟩
  | some m => ⟨r.fs, r.out ++ ["Error: " ++ m], .exitCode 1⟩

/-- `create_test_dirs.py`: like `create_dirs.py` but over
`test_directories` with its own summary line. -/
def create_test_dirs_run (fs : FS) : RunResult :=
  let r := loopTest fs
  match r.err with
  | none => ⟨r.fs, r.out ++ [summaryTestDirs], .fallThrough⟩
  | some m => ⟨r.fs, r.out, .uncaught m⟩

/-- `create_dirs.py` as invoked by the interpreter: the script never reads
`sys.argv` or `os.environ`, so the argument vector and environment are
parameters the body ignores. -/
def create_dirs_main (fs : FS) (_argv _env : List String) : RunResult :=
  create_dirs_run fs

/-- `create_structure.py` as invoked by the interpreter; reads no arguments
or environment. -/
def create_structure_main (fs : FS) (_argv _env : List String) : RunResult :=
  create_structure_run fs

/-- `create_test_dirs.py` as invoked by the interpreter; reads no arguments
or environment. -/
def create_test_dirs_main (fs : FS) (_argv _env : List String) : RunResult :=
  create_test_dirs_run fs

/-! ### Basic lemmas about a single `mkdirStep` -/

/-- A step never changes the set of files. -/
theorem mkdirStep_files (fs : FS) (q : CPath) : (mkdirStep fs q).1.files = fs.files := by
  unfold mkdirStep
  split_ifs <;> rfl

/-- A step only adds directories: existing directories survive. -/
theorem mkdirStep_dirs_mono (fs : FS) (q : CPath) : fs.dirs ⊆ (mkdirStep fs q).1.dirs := by
  unfold mkdirStep
  split_ifs <;> simp [List.subset_append_left]

/-- After a successful step the path is a directory, and it was not a file. -/
theorem mkdirStep_none (fs : FS) (q : CPath) (fs' : FS)
    (h : mkdirStep fs q = (fs', none)) : q ∈ fs'.dirs ∧ q ∉ fs.files := by
  unfold mkdirStep at h
  split_ifs at h with h1 h2 <;> cases h
  · exact ⟨h2, h1⟩
  · exact ⟨by simp, h1⟩

/-- A failing step leaves the state unchanged and means the path was a file. -/
theorem mkdirStep_some (fs : FS) (q : CPath) (fs' : FS) (m : String)
    (h : mkdirStep fs q = (fs', some m)) : fs' = fs ∧ q ∈ fs.files := by
  unfold mkdirStep at h
  split_ifs at h with h1 h2 <;> cases h
  exact ⟨rfl, h1⟩

/-! ### Lemmas about `makedirsAux` and `makedirs` -/

/-- Walking a prefix chain never changes the set of files. -/
theorem makedirsAux_files (qs : List CPath) :
    ∀ fs : FS, (makedirsAux fs qs).1.files = fs.files := by
  induction qs with
  | nil => intro fs; rfl
  | cons q qs ih =>
    intro fs
    rcases hstep : mkdirStep fs q with ⟨fs₁, e⟩
    cases e with
    | none =>
      have : makedirsAux fs (q :: qs) = makedirsAux fs₁ qs := by
        simp [makedirsAux, hstep]
      rw [this, ih fs₁, ← mkdirStep_files fs q, hstep]
    | some m =>
      have : makedirsAux fs (q :: qs) = (fs₁, some m) := by
        simp [makedirsAux, hstep]
      rw [this]
      have := mkdirStep_files fs q
      rw [hstep] at this
      exact this

/-- Walking a prefix chain only adds directories. -/
theorem makedirsAux_dirs_mono (qs : List CPath) :
    ∀ fs : FS, fs.dirs ⊆ (makedirsAux fs qs).1.dirs := by
  induction qs with
  | nil => intro fs; exact fun _ h => h
  | cons q qs ih =>
    intro fs
    rcases hstep : mkdirStep fs q with ⟨fs₁, e⟩
    have hmono : fs.dirs ⊆ fs₁.dirs := by
      have := mkdirStep_dirs_mono fs q
      rw [hstep] at this
      exact this
    cases e with
    | none =>
      have heq : makedirsAux fs (q :: qs) = makedirsAux fs₁ qs := by
        simp [makedirsAux, hstep]
      rw [heq]
      exact hmono.trans (ih fs₁)
    | some m =>
      have heq : makedirsAux fs (q :: qs) = (fs₁, some m) := by
        simp [makedirsAux, hstep]
      rw [heq]
      exact hmono

/-- After a fully successful walk, every path of the chain is a directory and
none of them is a file. -/
theorem makedirsAux_none_mem (qs : List CPath) :
    ∀ fs fs' : FS, makedirsAux fs qs = (fs', none) →
      ∀ q ∈ qs, q ∈ fs'.dirs ∧ q ∉ fs'.files := by
  induction qs with
  | nil => intro fs fs' _ q hq; cases hq
  | cons q qs ih =>
    intro fs fs' h r hr
    rcases hstep : mkdirStep fs q with ⟨fs₁, e⟩
    cases e with
    | some m =>
      have heq : makedirsAux fs (q :: qs) = (fs₁, some m) := by
        simp [makedirsAux, hstep]
      rw [heq] at h
      cases h
    | none =>
      have heq : makedirsAux fs (q :: qs) = makedirsAux fs₁ qs := by
        simp [makedirsAux, hstep]
      rw [heq] at h
      rcases List.mem_cons.1 hr with rfl | hr'
      · obtain ⟨hdir, hfile⟩ := mkdirStep_none fs r fs₁ hstep
        constructor
        · have := makedirsAux_dirs_mono qs fs₁
          rw [h] at this
          exact this hdir
        · have hf : fs'.files = fs₁.files := by
            have := makedirsAux_files qs fs₁
            rw [h] at this
            exact this
          have hf₁ : fs₁.files = fs.files := by
            have := mkdirStep_files fs r
            rw [hstep] at this
            exact this
          rw [hf, hf₁]
          exact hfile
      · exact ih fs₁ fs' h r hr'

/-- If every path of the chain already is a directory and none is a file,
the walk is a no-op success. -/
theorem makedirsAux_ensured (qs : List CPath) :
    ∀ fs : FS, (∀ q ∈ qs, q ∈ fs.dirs ∧ q ∉ fs.files) →
      makedirsAux fs qs = (fs, none) := by
  induction qs with
  | nil => intro fs _; rfl
  | cons q qs ih =>
    intro fs h
    obtain ⟨hdir, hfile⟩ := h q (List.mem_cons_self q qs)
    have hstep : mkdirStep fs q = (fs, none) := by
      unfold mkdirStep
      rw [if_neg hfile, if_pos hdir]
    have heq : makedirsAux fs (q :: qs) = makedirsAux fs qs := by
      simp [makedirsAux, hstep]
    rw [heq]
    exact ih fs (fun r hr => h r (List.mem_cons_of_mem q hr))

/-- Replaying a walk from its own result state reproduces the result exactly,
whether it succeeded or failed. -/
theorem makedirsAux_idem (qs : List CPath) :
    ∀ fs fs' : FS, ∀ e : Option String, makedirsAux fs qs = (fs', e) →
      makedirsAux fs' qs = (fs', e) := by
  induction qs with
  | nil => intro fs fs' e h; cases h; rfl
  | cons q qs ih =>
    intro fs fs' e h
    rcases hstep : mkdirStep fs q with ⟨fs₁, e₁⟩
    cases e₁ with
    | some m =>
      have heq : makedirsAux fs (q :: qs) = (fs₁, some m) := by
        simp [makedirsAux, hstep]
      rw [heq] at h
      injection h with h1 h2
      subst h1
      subst h2
      obtain ⟨hfs, _⟩ := mkdirStep_some fs q fs₁ m hstep
      rw [hfs] at hstep ⊢
      simp [makedirsAux, hstep]
    | none =>
      have heq : makedirsAux fs (q :: qs) = makedirsAux fs₁ qs := by
        simp [makedirsAux, hstep]
      rw [heq] at h
      obtain ⟨hdir, hfile⟩ := mkdirStep_none fs q fs₁ hstep
      have hdir' : q ∈ fs'.dirs := by
        have := makedirsAux_dirs_mono qs fs₁
        rw [h] at this
        exact this hdir
      have hfile' : q ∉ fs'.files := by
        have h₂ : fs'.files = fs₁.files := by
          have := makedirsAux_files qs fs₁
          rw [h] at this
          exact this
        have h₃ : fs₁.files = fs.files := by
          have := mkdirStep_files fs q
          rw [hstep] at this
          exact this
        rw [h₂, h₃]
        exact hfile
      have hstep' : mkdirStep fs' q = (fs', none) := by
        unfold mkdirStep
        rw [if_neg hfile', if_pos hdir']
      have heq' : makedirsAux fs' (q :: qs) = makedirsAux fs' qs := by
        simp [makedirsAux, hstep']
      rw [heq']
      exact ih fs₁ fs' e h

/-- If some path of the chain is occupied by a file, the walk fails. -/
theorem makedirsAux_file_fails (qs : List CPath) :
    ∀ fs : FS, ∀ q ∈ qs, q ∈ fs.files → ((makedirsAux fs qs).2).isSome := by
  induction qs with
  | nil => intro fs q hq; cases hq
  | cons r qs ih =>
    intro fs q hq hfile
    rcases hstep : mkdirStep fs r with ⟨fs₁, e₁⟩
    cases e₁ with
    | some m =>
      have heq : makedirsAux fs (r :: qs) = (fs₁, some m) := by
        simp [makedirsAux, hstep]
      rw [heq]
      rfl
    | none =>
      have heq : makedirsAux fs (r :: qs) = makedirsAux fs₁ qs := by
        simp [makedirsAux, hstep]
      rw [heq]
      rcases List.mem_cons.1 hq with rfl | hq'
      · obtain ⟨_, hnot⟩ := mkdirStep_none fs q fs₁ hstep
        exact absurd hfile hnot
      · have hfile₁ : q ∈ fs₁.files := by
          have := mkdirStep_files fs r
          rw [hstep] at this
          rw [this]
          exact hfile
        exact ih fs₁ q hq' hfile₁

/-- The set of files is unchanged by `makedirs`, success or failure. -/
theorem makedirs_files (fs : FS) (p : CPath) : (makedirs fs p).1.files = fs.files :=
  makedirsAux_files (ancestors p) fs

/-- Directories are only ever added by `makedirs`. -/
theorem makedirs_dirs_mono (fs : FS) (p : CPath) : fs.dirs ⊆ (makedirs fs p).1.dirs :=
  makedirsAux_dirs_mono (ancestors p) fs

/-! ### Lemmas about the shared directory loop -/

/-- Unfolding: a failing first entry aborts the loop at once. -/
theorem runLoop_cons_some (base : CPath) (fs : FS) (d : String) (ds : List String)
    (fs₁ : FS) (m : String) (h : makedirs fs (base ++ splitPath d) = (fs₁, some m)) :
    runLoop base fs (d :: ds) = ⟨fs₁, [], some m⟩ := by
  simp [runLoop, h]

/-- Unfolding: a successful first entry prints its line and continues. -/
theorem runLoop_cons_none (base : CPath) (fs : FS) (d : String) (ds : List String)
    (fs₁ : FS) (h : makedirs fs (base ++ splitPath d) = (fs₁, none)) :
    runLoop base fs (d :: ds) =
      ⟨(runLoop base fs₁ ds).fs,
        createdLine (base ++ splitPath d) :: (runLoop base fs₁ ds).out,
        (runLoop base fs₁ ds).err⟩ := by
  simp [runLoop, h]

/-- The loop never changes the set of files: nothing is ever overwritten. -/
theorem runLoop_files (base : CPath) (ds : List String) :
    ∀ fs : FS, (runLoop base fs ds).fs.files = fs.files := by
  induction ds with
  | nil => intro fs; rfl
  | cons d ds ih =>
    intro fs
    rcases hmk : makedirs fs (base ++ splitPath d) with ⟨fs₁, e⟩
    have hf₁ : fs₁.files = fs.files := by
      have := makedirs_files fs (base ++ splitPath d)
      rw [hmk] at this
      exact this
    cases e with
    | some m => rw [runLoop_cons_some base fs d ds fs₁ m hmk]; exact hf₁
    | none =>
      rw [runLoop_cons_none base fs d ds fs₁ hmk]
      show (runLoop base fs₁ ds).fs.files = fs.files
      rw [ih fs₁, hf₁]

/-- The loop only adds directories: pre-existing directories survive. -/
theorem runLoop_dirs_mono (base : CPath) (ds : List String) :
    ∀ fs : FS, fs.dirs ⊆ (runLoop base fs ds).fs.dirs := by
  induction ds with
  | nil => intro fs; exact fun _ h => h
  | cons d ds ih =>
    intro fs
    rcases hmk : makedirs fs (base ++ splitPath d) with ⟨fs₁, e⟩
    have hm₁ : fs.dirs ⊆ fs₁.dirs := by
      have := makedirs_dirs_mono fs (base ++ splitPath d)
      rw [hmk] at this
      exact this
    cases e with
    | some m => rw [runLoop_cons_some base fs d ds fs₁ m hmk]; exact hm₁
    | none =>
      rw [runLoop_cons_none base fs d ds fs₁ hmk]
      exact hm₁.trans (ih fs₁)

/-- On a fully successful loop, every ancestor of every resolved path is a
directory in the final state, and none of them is a file. -/
theorem runLoop_err_none_mem (base : CPath) (ds : List String) :
    ∀ fs : FS, (runLoop base fs ds).err = none →
      ∀ d ∈ ds, ∀ q ∈ ancestors (base ++ splitPath d),
        q ∈ (runLoop base fs ds).fs.dirs ∧ q ∉ (runLoop base fs ds).fs.files := by
  induction ds with
  | nil => intro fs _ d hd; cases hd
  | cons d ds ih =>
    intro fs herr d' hd' q hq
    rcases hmk : makedirs fs (base ++ splitPath d) with ⟨fs₁, e⟩
    cases e with
    | some m =>
      rw [runLoop_cons_some base fs d ds fs₁ m hmk] at herr
      cases herr
    | none =>
      rw [runLoop_cons_none base fs d ds fs₁ hmk] at herr ⊢
      rcases List.mem_cons.1 hd' with rfl | hd''
      · obtain ⟨hdir, hfile⟩ :=
          makedirsAux_none_mem (ancestors (base ++ splitPath d')) fs fs₁ hmk q hq
        refine ⟨runLoop_dirs_mono base ds fs₁ hdir, ?_⟩
        show q ∉ (runLoop base fs₁ ds).fs.files
        rw [runLoop_files base ds fs₁]
        exact hfile
      · exact ih fs₁ herr d' hd'' q hq

/-- On a fully successful loop, the printed lines are exactly one
`Created:` line per entry, in list order. -/
theorem runLoop_err_none_out (base : CPath) (ds : List String) :
    ∀ fs : FS, (runLoop base fs ds).err = none →
      (runLoop base fs ds).out =
        ds.map (fun d => createdLine (base ++ splitPath d)) := by
  induction ds with
  | nil => intro fs _; rfl
  | cons d ds ih =>
    intro fs herr
    rcases hmk : makedirs fs (base ++ splitPath d) with ⟨fs₁, e⟩
    cases e with
    | some m =>
      rw [runLoop_cons_some base fs d ds fs₁ m hmk] at herr
      cases herr
    | none =>
      rw [runLoop_cons_none base fs d ds fs₁ hmk] at herr ⊢
      show createdLine (base ++ splitPath d) :: (runLoop base fs₁ ds).out = _
      rw [List.map_cons, ih fs₁ herr]

/-- Every line the loop prints is the `Created:` line of one of its
entries, whether or not the loop eventually fails. -/
theorem runLoop_out_shape (base : CPath) (ds : List String) :
    ∀ fs : FS, ∀ l ∈ (runLoop base fs ds).out,
      ∃ d ∈ ds, l = createdLine (base ++ splitPath d) := by
  induction ds with
  | nil => intro fs l hl; cases hl
  | cons d ds ih =>
    intro fs l hl
    rcases hmk : makedirs fs (base ++ splitPath d) with ⟨fs₁, e⟩
    cases e with
    | some m =>
      rw [runLoop_cons_some base fs d ds fs₁ m hmk] at hl
      cases hl
    | none =>
      rw [runLoop_cons_none base fs d ds fs₁ hmk] at hl
      rcases List.mem_cons.1 hl with rfl | hl'
      · exact ⟨d, List.mem_cons_self d ds, rfl⟩
      · obtain ⟨d', hd', rfl⟩ := ih fs₁ l hl'
        exact ⟨d', List.mem_cons_of_mem d hd', rfl⟩

/-- After a successful `makedirs`, every ancestor of the path is a directory
and none of them is a file. -/
theorem makedirs_none_mem (fs fs' : FS) (p : CPath) (h : makedirs fs p = (fs', none)) :
    ∀ q ∈ ancestors p, q ∈ fs'.dirs ∧ q ∉ fs'.files :=
  makedirsAux_none_mem (ancestors p) fs fs' h

/-- If every ancestor of the path already is a directory and none is a file,
`makedirs` is a no-op success. -/
theorem makedirs_ensured (fs : FS) (p : CPath)
    (h : ∀ q ∈ ancestors p, q ∈ fs.dirs ∧ q ∉ fs.files) :
    makedirs fs p = (fs, none) :=
  makedirsAux_ensured (ancestors p) fs h

/-- Replaying `makedirs` from its own result state reproduces the result. -/
theorem makedirs_idem (fs fs' : FS) (p : CPath) (e : Option String)
    (h : makedirs fs p = (fs', e)) : makedirs fs' p = (fs', e) :=
  makedirsAux_idem (ancestors p) fs fs' e h

/-- Replaying the whole loop from its own final filesystem reproduces the
final filesystem, the printed lines and the error verbatim — whether the
first run succeeded or failed. -/
theorem runLoop_replay (base : CPath) (ds : List String) :
    ∀ fs : FS, runLoop base (runLoop base fs ds).fs ds = runLoop base fs ds := by
  induction ds with
  | nil => intro fs; rfl
  | cons d ds ih =>
    intro fs
    rcases hmk : makedirs fs (base ++ splitPath d) with ⟨fs₁, e⟩
    cases e with
    | some m =>
      rw [runLoop_cons_some base fs d ds fs₁ m hmk]
      exact runLoop_cons_some base fs₁ d ds fs₁ m
        (makedirs_idem fs fs₁ (base ++ splitPath d) (some m) hmk)
    | none =>
      rw [runLoop_cons_none base fs d ds fs₁ hmk]
      have hanc : ∀ q ∈ ancestors (base ++ splitPath d),
          q ∈ (runLoop base fs₁ ds).fs.dirs ∧ q ∉ (runLoop base fs₁ ds).fs.files := by
        intro q hq
        obtain ⟨hdir, hfile⟩ := makedirs_none_mem fs fs₁ (base ++ splitPath d) hmk q hq
        refine ⟨runLoop_dirs_mono base ds fs₁ hdir, ?_⟩
        rw [runLoop_files base ds fs₁]
        exact hfile
      have hmk' : makedirs (runLoop base fs₁ ds).fs (base ++ splitPath d) =
          ((runLoop base fs₁ ds).fs, none) :=
        makedirs_ensured (runLoop base fs₁ ds).fs (base ++ splitPath d) hanc
      rw [runLoop_cons_none base (runLoop base fs₁ ds).fs d ds (runLoop base fs₁ ds).fs hmk']
      rw [ih fs₁]

/-- A failing loop run fails at a well-defined first index `i`: the first `i`
entries succeed and are announced, nothing after entry `i` is processed, and
the whole run coincides with the run restricted to the first `i + 1` entries. -/
theorem runLoop_err_some (base : CPath) (ds : List String) :
    ∀ fs : FS, ∀ m : String, (runLoop base fs ds).err = some m →
      ∃ i, i < ds.length ∧
        (runLoop base fs (ds.take i)).err = none ∧
        (runLoop base fs ds).out =
          (ds.take i).map (fun d => createdLine (base ++ splitPath d)) ∧
        runLoop base fs ds = runLoop base fs (ds.take (i + 1)) := by
  induction ds with
  | nil => intro fs m h; cases h
  | cons d ds ih =>
    intro fs m h
    rcases hmk : makedirs fs (base ++ splitPath d) with ⟨fs₁, e⟩
    cases e with
    | some m₀ =>
      refine ⟨0, Nat.succ_pos _, rfl, ?_, ?_⟩
      · rw [runLoop_cons_some base fs d ds fs₁ m₀ hmk]
        rfl
      · rw [runLoop_cons_some base fs d ds fs₁ m₀ hmk,
          show (d :: ds).take 1 = [d] from rfl]
        exact (runLoop_cons_some base fs d [] fs₁ m₀ hmk).symm
    | none =>
      rw [runLoop_cons_none base fs d ds fs₁ hmk] at h
      obtain ⟨i, hi, h1, h2, h3⟩ := ih fs₁ m h
      refine ⟨i + 1, Nat.succ_lt_succ hi, ?_, ?_, ?_⟩
      · rw [show (d :: ds).take (i + 1) = d :: ds.take i from rfl,
          runLoop_cons_none base fs d (ds.take i) fs₁ hmk]
        exact h1
      · rw [runLoop_cons_none base fs d ds fs₁ hmk,
          show (d :: ds).take (i + 1) = d :: ds.take i from rfl, List.map_cons]
        show createdLine (base ++ splitPath d) :: (runLoop base fs₁ ds).out = _
        rw [h2]
      · rw [runLoop_cons_none base fs d ds fs₁ hmk,
          show (d :: ds).take (i + 1 + 1) = d :: ds.take (i + 1) from rfl,
          runLoop_cons_none base fs d (ds.take (i + 1)) fs₁ hmk, ← h3]

/-! ### Distinguishing the three kinds of console lines -/

/-- A `Created:` line always begins with the character `C`. -/
theorem createdLine_head (p : CPath) : (createdLine p).data.head? = some 'C' := by
  cases hj : joinPath p with
  | mk l => rw [createdLine, hj]; rfl

/-- A `Created:` line is never the summary line of `create_dirs.py` /
`create_structure.py`. -/
theorem createdLine_ne_summaryDirs (p : CPath) : createdLine p ≠ summaryDirs := by
  intro h
  have h2 := congrArg (fun s => s.data.head?) h
  simp only at h2
  rw [createdLine_head] at h2
  simp [summaryDirs] at h2

/-- A `Created:` line is never the summary line of `create_test_dirs.py`. -/
theorem createdLine_ne_summaryTestDirs (p : CPath) : createdLine p ≠ summaryTestDirs := by
  intro h
  have h2 := congrArg (fun s => s.data.head?) h
  simp only at h2
  rw [createdLine_head] at h2
  simp [summaryTestDirs] at h2

/-- A `Created:` line is never an `Error:` line. -/
theorem createdLine_ne_errorLine (p : CPath) (m : String) :
    createdLine p ≠ "Error: " ++ m := by
  intro h
  have h2 := congrArg (fun s => s.data.head?) h
  simp only at h2
  rw [createdLine_head] at h2
  cases m with
  | mk l =>
    have h3 : ("Error: " ++ String.mk l).data.head? = some 'E' := rfl
    rw [h3] at h2
    simp at h2

/-- The summary line is never an `Error:` line. -/
theorem summaryDirs_ne_errorLine (m : String) : summaryDirs ≠ "Error: " ++ m := by
  intro h
  have h2 := congrArg (fun s => s.data.head?) h
  simp only at h2
  cases m with
  | mk l =>
    have h3 : ("Error: " ++ String.mk l).data.head? = some 'E' := rfl
    rw [h3] at h2
    simp [summaryDirs] at h2

/-- The loop never prints the `create_dirs.py` summary line. -/
theorem summaryDirs_not_mem_out (base : CPath) (ds : List String) (fs : FS) :
    summaryDirs ∉ (runLoop base fs ds).out := by
  intro h
  obtain ⟨d, _, hd⟩ := runLoop_out_shape base ds fs summaryDirs h
  exact createdLine_ne_summaryDirs (base ++ splitPath d) hd.symm

/-- The loop never prints an `Error:` line. -/
theorem errorLine_not_mem_out (base : CPath) (ds : List String) (fs : FS) (m : String) :
    ("Error: " ++ m) ∉ (runLoop base fs ds).out := by
  intro h
  obtain ⟨d, _, hd⟩ := runLoop_out_shape base ds fs _ h
  exact createdLine_ne_errorLine (base ++ splitPath d) m hd.symm

/-- A nonempty path is one of its own ancestors (the longest one). -/
theorem self_mem_ancestors (p : CPath) (hp : p ≠ []) : p ∈ ancestors p := by
  unfold ancestors
  refine List.mem_map.2 ⟨p.length - 1, ?_, ?_⟩
  · exact List.mem_range.2 (Nat.sub_lt (List.length_pos.2 hp) Nat.one_pos)
  · rw [Nat.sub_add_cancel (Nat.succ_le_of_lt (List.length_pos.2 hp))]
    exact List.take_length p

/-! ### The claims -/

/-- C1: for every base path `B` and relative-path list `L`, after a
successful run of the scaffolding loop on `(B, L)`, every resolved path
`B ++ l` exists as a directory, every missing ancestor of it has been
created as a directory, and directories that existed before the run are
still directories (and no file was touched). -/
theorem C1_resolved_paths_are_dirs (base : CPath) (fs : FS) (ds : List String)
    (hb : base ≠ []) (hrun : (runLoop base fs ds).err = none) :
    (∀ d ∈ ds, (base ++ splitPath d) ∈ (runLoop base fs ds).fs.dirs ∧
        ∀ q ∈ ancestors (base ++ splitPath d), q ∈ (runLoop base fs ds).fs.dirs) ∧
    (∀ q ∈ fs.dirs, q ∈ (runLoop base fs ds).fs.dirs) ∧
    (runLoop base fs ds).fs.files = fs.files := by
  refine ⟨?_, fun q hq => runLoop_dirs_mono base ds fs hq, runLoop_files base ds fs⟩
  intro d hd
  have hmem := runLoop_err_none_mem base ds fs hrun d hd
  have hne : base ++ splitPath d ≠ [] := fun hcon => hb (List.append_eq_nil.1 hcon).1
  exact ⟨(hmem _ (self_mem_ancestors _ hne)).1, fun q hq => (hmem q hq).1⟩

/-- Witness for C1 at a concrete successful run: base `["b"]`, list `["x"]`,
empty initial filesystem. -/
theorem C1_witness :
    (["b"] ++ splitPath "x") ∈ (runLoop ["b"] ⟨[], []⟩ ["x"]).fs.dirs :=
  ((C1_resolved_paths_are_dirs ["b"] ⟨[], []⟩ ["x"] (by decide) (by decide)).1
    "x" (by decide)).1

/-- C2: running the scaffolder twice in succession from any starting state
ends in the same filesystem state as running it once — the replay reproduces
the whole result (state, output and error) — and likewise for each of the
three scripts. -/
theorem C2_idempotent (base : CPath) (fs : FS) (ds : List String) :
    runLoop base (runLoop base fs ds).fs ds = runLoop base fs ds ∧
    create_dirs_run ((create_dirs_run fs).fs) = create_dirs_run fs ∧
    create_structure_run ((create_structure_run fs).fs) = create_structure_run fs ∧
    create_test_dirs_run ((create_test_dirs_run fs).fs) = create_test_dirs_run fs := by
  have hrepM : loopMain ((loopMain fs).fs) = loopMain fs :=
    runLoop_replay (splitPath base_path) directories fs
  have hrepT : loopTest ((loopTest fs).fs) = loopTest fs :=
    runLoop_replay (splitPath base_path) test_directories fs
  refine ⟨runLoop_replay base ds fs, ?_, ?_, ?_⟩
  · have hfs : (create_dirs_run fs).fs = (loopMain fs).fs := by
      rcases he : (loopMain fs).err with _ | m <;> simp [create_dirs_run, he]
    rw [hfs]
    unfold create_dirs_run
    rw [hrepM]
  · have hfs : (create_structure_run fs).fs = (loopMain fs).fs := by
      rcases he : (loopMain fs).err with _ | m <;> simp [create_structure_run, he]
    rw [hfs]
    unfold create_structure_run
    rw [hrepM]
  · have hfs : (create_test_dirs_run fs).fs = (loopTest fs).fs := by
      rcases he : (loopTest fs).err with _ | m <;> simp [create_test_dirs_run, he]
    rw [hfs]
    unfold create_test_dirs_run
    rw [hrepT]

/-- C6 counterexample: on an empty filesystem (so the base location does not
exist) and an empty relative-path list, the run succeeds yet creates nothing —
in particular it does not create the base location, contradicting the claim
that ancestor creation would create `B` when `L` is empty. -/
theorem C6_counterexample :
    (runLoop (splitPath base_path) ⟨[], []⟩ []).err = none ∧
    (runLoop (splitPath base_path) ⟨[], []⟩ []).fs = ⟨[], []⟩ ∧
    splitPath base_path ∉ (runLoop (splitPath base_path) ⟨[], []⟩ []).fs.dirs := by
  exact ⟨rfl, rfl, by decide⟩

/-- C6 amended: if the relative-path list is empty, the operation succeeds
trivially, prints nothing and creates nothing at all — the base location is
not created either, because it is only ever created as an ancestor of a list
entry. -/
theorem C6_empty_list_noop (base : CPath) (fs : FS) :
    runLoop base fs [] = ⟨fs, [], none⟩ := rfl

/-- C3: exactly one of the three script variants — `create_structure.py` —
catches a filesystem failure at the top level, prints `Error: <message>` and
exits with the non-zero status 1, while `create_dirs.py` and
`create_test_dirs.py` let the failure propagate unhandled (raw traceback). -/
theorem C3_error_variants (fs₁ fs₂ fs₃ : FS) (m₁ m₂ m₃ : String)
    (h₁ : (loopMain fs₁).err = some m₁)
    (h₂ : (loopMain fs₂).err = some m₂)
    (h₃ : (loopTest fs₃).err = some m₃) :
    (create_structure_run fs₁).output = (loopMain fs₁).out ++ ["Error: " ++ m₁] ∧
    (create_structure_run fs₁).exit = .exitCode 1 ∧
    (create_dirs_run fs₂).exit = .uncaught m₂ ∧
    (create_dirs_run fs₂).output = (loopMain fs₂).out ∧
    (create_test_dirs_run fs₃).exit = .uncaught m₃ ∧
    (create_test_dirs_run fs₃).output = (loopTest fs₃).out := by
  refine ⟨?_, ?_, ?_, ?_, ?_, ?_⟩ <;>
    simp [create_structure_run, create_dirs_run, create_test_dirs_run, h₁, h₂, h₃]

/-- Witness for C3: a filesystem where the very first path segment `C:` is
occupied by a file makes all three scripts fail. -/
theorem C3_witness :
    (create_structure_run ⟨[], [["C:"]]⟩).output =
      (loopMain ⟨[], [["C:"]]⟩).out ++ ["Error: " ++ "FileExistsError: C:"] ∧
    (create_structure_run ⟨[], [["C:"]]⟩).exit = .exitCode 1 ∧
    (create_dirs_run ⟨[], [["C:"]]⟩).exit = .uncaught "FileExistsError: C:" ∧
    (create_dirs_run ⟨[], [["C:"]]⟩).output = (loopMain ⟨[], [["C:"]]⟩).out ∧
    (create_test_dirs_run ⟨[], [["C:"]]⟩).exit = .uncaught "FileExistsError: C:" ∧
    (create_test_dirs_run ⟨[], [["C:"]]⟩).output = (loopTest ⟨[], [["C:"]]⟩).out :=
  C3_error_variants ⟨[], [["C:"]]⟩ ⟨[], [["C:"]]⟩ ⟨[], [["C:"]]⟩ _ _ _
    (by decide) (by decide) (by decide)

/-- C4: if an ancestor of the target path is occupied by a non-directory
file, `makedirs` fails there and does not overwrite the file; the loop never
modifies any file and never removes a directory (no rollback: previously
created directories stay); and a failing run reports the failure — printed
`Error:` message plus exit status 1 in `create_structure.py`, an unhandled
exception in `create_dirs.py`. -/
theorem C4_nondir_collision (fs fsE : FS) (p q base : CPath) (ds : List String)
    (m : String)
    (hq : q ∈ ancestors p) (hfile : q ∈ fs.files)
    (hE : (loopMain fsE).err = some m) :
    ((makedirs fs p).2).isSome ∧
    (makedirs fs p).1.files = fs.files ∧
    (runLoop base fs ds).fs.files = fs.files ∧
    (∀ r ∈ fs.dirs, r ∈ (runLoop base fs ds).fs.dirs) ∧
    (create_structure_run fsE).exit = .exitCode 1 ∧
    (create_structure_run fsE).output = (loopMain fsE).out ++ ["Error: " ++ m] ∧
    (create_dirs_run fsE).exit = .uncaught m ∧
    ∃ i, i < directories.length ∧
      loopMain fsE = runLoop (splitPath base_path) fsE (directories.take (i + 1)) := by
  obtain ⟨i, hi, _, _, hstop⟩ :=
    runLoop_err_some (splitPath base_path) directories fsE m hE
  refine ⟨makedirsAux_file_fails (ancestors p) fs q hq hfile,
    makedirs_files fs p, runLoop_files base ds fs,
    fun r hr => runLoop_dirs_mono base ds fs hr, ?_, ?_, ?_, ⟨i, hi, hstop⟩⟩ <;>
    simp [create_structure_run, create_dirs_run, hE]

/-- Witness for C4: the path `C:\x` collides with a file occupying `C:`. -/
theorem C4_witness :
    ((makedirs ⟨[], [["C:"]]⟩ ["C:", "x"]).2).isSome ∧
    (makedirs ⟨[], [["C:"]]⟩ ["C:", "x"]).1.files = [["C:"]] ∧
    (create_structure_run ⟨[], [["C:"]]⟩).exit = .exitCode 1 ∧
    (create_dirs_run ⟨[], [["C:"]]⟩).exit = .uncaught "FileExistsError: C:" := by
  have h := C4_nondir_collision ⟨[], [["C:"]]⟩ ⟨[], [["C:"]]⟩ ["C:", "x"] ["C:"]
    ["b"] ["y"] "FileExistsError: C:" (by decide) (by decide) (by decide)
  exact ⟨h.1, h.2.1, h.2.2.2.2.1, h.2.2.2.2.2.2.1⟩

/-- C7 counterexample: on a successful run (here from an empty filesystem),
only `create_structure.py` signals success with an explicit exit status 0;
both `create_dirs.py` and `create_test_dirs.py` terminate by implicit
fall-through — one explicit variant, not two as claimed. -/
theorem C7_counterexample :
    (create_structure_run ⟨[], []⟩).exit = .exitCode 0 ∧
    (create_dirs_run ⟨[], []⟩).exit = .fallThrough ∧
    (create_test_dirs_run ⟨[], []⟩).exit = .fallThrough := by
  refine ⟨?_, ?_, ?_⟩ <;> decide

/-- C7 amended: on full success, one of the three variants
(`create_structure.py`) propagates an explicit success status code 0 via
`sys.exit(0)`, while the other two (`create_dirs.py`, `create_test_dirs.py`)
rely on implicit fall-through. -/
theorem C7_success_exit (fs₁ fs₂ : FS)
    (h₁ : (loopMain fs₁).err = none) (h₂ : (loopTest fs₂).err = none) :
    (create_structure_run fs₁).exit = .exitCode 0 ∧
    (create_dirs_run fs₁).exit = .fallThrough ∧
    (create_test_dirs_run fs₂).exit = .fallThrough := by
  refine ⟨?_, ?_, ?_⟩ <;>
    simp [create_structure_run, create_dirs_run, create_test_dirs_run, h₁, h₂]

/-- Witness for the amended C7 at the empty filesystem, where both loops
succeed. -/
theorem C7_witness :
    (create_structure_run ⟨[], []⟩).exit = .exitCode 0 ∧
    (create_dirs_run ⟨[], []⟩).exit = .fallThrough ∧
    (create_test_dirs_run ⟨[], []⟩).exit = .fallThrough :=
  C7_success_exit ⟨[], []⟩ ⟨[], []⟩ (by decide) (by decide)

/-- C8: in `create_structure.py` the success path and the failure path are
mutually exclusive and exhaustive: every run either exits with status 0,
ends its output with the success summary and prints no `Error:` line, or
exits with status 1, ends its output with an `Error: <message>` line and
never prints the summary — and no run does both.  The success path exits
with 0 because the `SystemExit` of `sys.exit(0)` is not an `Exception` and
is therefore not intercepted by the handler. -/
theorem C8_success_failure_dichotomy (fs : FS) :
    (((create_structure_run fs).exit = .exitCode 0 ∧
        (create_structure_run fs).output.getLast? = some summaryDirs ∧
        ∀ m : String, ("Error: " ++ m) ∉ (create_structure_run fs).output) ∨
      ((create_structure_run fs).exit = .exitCode 1 ∧
        (∃ m : String,
          (create_structure_run fs).output.getLast? = some ("Error: " ++ m)) ∧
        summaryDirs ∉ (create_structure_run fs).output)) ∧
    ¬((create_structure_run fs).exit = .exitCode 0 ∧
      (create_structure_run fs).exit = .exitCode 1) := by
  constructor
  · rcases he : (loopMain fs).err with _ | m
    · left
      have hout : (create_structure_run fs).output =
          (loopMain fs).out ++ [summaryDirs] := by
        simp [create_structure_run, he]
      have hexit : (create_structure_run fs).exit = .exitCode 0 := by
        simp [create_structure_run, he]
      refine ⟨hexit, ?_, ?_⟩
      · rw [hout]
        exact List.getLast?_concat _
      · intro m hm
        rw [hout] at hm
        rcases List.mem_append.1 hm with hm' | hm'
        · exact errorLine_not_mem_out (splitPath base_path) directories fs m hm'
        · exact summaryDirs_ne_errorLine m (List.mem_singleton.1 hm').symm
    · right
      have hout : (create_structure_run fs).output =
          (loopMain fs).out ++ ["Error: " ++ m] := by
        simp [create_structure_run, he]
      have hexit : (create_structure_run fs).exit = .exitCode 1 := by
        simp [create_structure_run, he]
      refine ⟨hexit, ⟨m, ?_⟩, ?_⟩
      · rw [hout]
        exact List.getLast?_concat _
      · intro hm
        rw [hout] at hm
        rcases List.mem_append.1 hm with hm' | hm'
        · exact summaryDirs_not_mem_out (splitPath base_path) directories fs hm'
        · exact summaryDirs_ne_errorLine m (List.mem_singleton.1 hm')
  · rintro ⟨h0, h1⟩
    rw [h0] at h1
    simp at h1

/-- C9: processing is strictly sequential and aborts at the first failure:
a failing loop run fails at a first index `i`, the run restricted to the
first `i` entries succeeds, exactly those `i` entries have been announced
with `Created:` lines, the whole run coincides with the run over the first
`i + 1` entries (nothing after the failing entry is created or announced),
and no failing script run prints its summary line. -/
theorem C9_first_failure (base : CPath) (fs fs' : FS) (ds : List String)
    (m m' : String)
    (h : (runLoop base fs ds).err = some m)
    (h' : (loopMain fs').err = some m') :
    (∃ i, i < ds.length ∧
      (runLoop base fs (ds.take i)).err = none ∧
      (runLoop base fs ds).out =
        (ds.take i).map (fun d => createdLine (base ++ splitPath d)) ∧
      runLoop base fs ds = runLoop base fs (ds.take (i + 1))) ∧
    summaryDirs ∉ (create_dirs_run fs').output ∧
    summaryDirs ∉ (create_structure_run fs').output := by
  refine ⟨runLoop_err_some base ds fs m h, ?_, ?_⟩
  · have hout : (create_dirs_run fs').output = (loopMain fs').out := by
      simp [create_dirs_run, h']
    rw [hout]
    exact summaryDirs_not_mem_out (splitPath base_path) directories fs'
  · have hout : (create_structure_run fs').output =
        (loopMain fs').out ++ ["Error: " ++ m'] := by
      simp [create_structure_run, h']
    rw [hout]
    intro hm
    rcases List.mem_append.1 hm with hm' | hm'
    · exact summaryDirs_not_mem_out (splitPath base_path) directories fs' hm'
    · exact summaryDirs_ne_errorLine m' (List.mem_singleton.1 hm')

/-- Witness for C9: the single-entry run on base `["b"]` fails because
`b\x` is a file, and a script run failing on `C:` prints no summary. -/
theorem C9_witness :
    (∃ i, i < (["x"] : List String).length ∧
      (runLoop ["b"] ⟨[], [["b", "x"]]⟩ ((["x"] : List String).take i)).err = none ∧
      (runLoop ["b"] ⟨[], [["b", "x"]]⟩ ["x"]).out =
        ((["x"] : List String).take i).map (fun d => createdLine (["b"] ++ splitPath d)) ∧
      runLoop ["b"] ⟨[], [["b", "x"]]⟩ ["x"] =
        runLoop ["b"] ⟨[], [["b", "x"]]⟩ ((["x"] : List String).take (i + 1))) ∧
    summaryDirs ∉ (create_dirs_run ⟨[], [["C:"]]⟩).output ∧
    summaryDirs ∉ (create_structure_run ⟨[], [["C:"]]⟩).output :=
  C9_first_failure ["b"] ⟨[], [["b", "x"]]⟩ ⟨[], [["C:"]]⟩ ["x"]
    "FileExistsError: b\x5cx" "FileExistsError: C:" (by decide) (by decide)

/-- C5 counterexample: on a filesystem where `C:` is a file, the run of
`create_structure.py` prints no `Created:` line at all although the
directory list has 11 entries — the output is not one `Created:` line per
path in the list. -/
theorem C5_counterexample :
    directories.length = 11 ∧
    (create_structure_run ⟨[], [["C:"]]⟩).output = ["Error: FileExistsError: C:"] ∧
    createdLine (splitPath base_path ++ splitPath ".github\x5cworkflows")
      ∉ (create_structure_run ⟨[], [["C:"]]⟩).output :=
  ⟨rfl, by decide, by decide⟩

/-- C5 amended: on every successful run the console output is exactly one
`Created: <absolute path>` line per path in the list, in list order,
followed by the summary line; on a failing run the `Created:` lines cover
exactly the entries processed before the failure, and the catching variant
appends one `Error: <message>` line. -/
theorem C5_output_format (fs₁ fs₂ fs₃ : FS) (m : String)
    (h₁ : (loopMain fs₁).err = none)
    (h₂ : (loopTest fs₂).err = none)
    (h₃ : (loopMain fs₃).err = some m) :
    (create_dirs_run fs₁).output =
      directories.map (fun d => createdLine (splitPath base_path ++ splitPath d))
        ++ [summaryDirs] ∧
    (create_structure_run fs₁).output =
      directories.map (fun d => createdLine (splitPath base_path ++ splitPath d))
        ++ [summaryDirs] ∧
    (create_test_dirs_run fs₂).output =
      test_directories.map (fun d => createdLine (splitPath base_path ++ splitPath d))
        ++ [summaryTestDirs] ∧
    ∃ i, i < directories.length ∧
      (create_structure_run fs₃).output =
        (directories.take i).map (fun d => createdLine (splitPath base_path ++ splitPath d))
          ++ ["Error: " ++ m] := by
  have hm₁ : (loopMain fs₁).out =
      directories.map (fun d => createdLine (splitPath base_path ++ splitPath d)) :=
    runLoop_err_none_out (splitPath base_path) directories fs₁ h₁
  have hm₂ : (loopTest fs₂).out =
      test_directories.map (fun d => createdLine (splitPath base_path ++ splitPath d)) :=
    runLoop_err_none_out (splitPath base_path) test_directories fs₂ h₂
  obtain ⟨i, hi, _, hout, _⟩ :=
    runLoop_err_some (splitPath base_path) directories fs₃ m h₃
  have hout' : (loopMain fs₃).out =
      (directories.take i).map (fun d => createdLine (splitPath base_path ++ splitPath d)) :=
    hout
  refine ⟨?_, ?_, ?_, i, hi, ?_⟩
  · simp [create_dirs_run, h₁, hm₁]
  · simp [create_structure_run, h₁, hm₁]
  · simp [create_test_dirs_run, h₂, hm₂]
  · simp [create_structure_run, h₃, hout']

/-- Witness for the amended C5: full output of a successful `create_dirs.py`
run and the truncated output of a failing `create_structure.py` run. -/
theorem C5_witness :
    (create_dirs_run ⟨[], []⟩).output =
      directories.map (fun d => createdLine (splitPath base_path ++ splitPath d))
        ++ [summaryDirs] ∧
    ∃ i, i < directories.length ∧
      (create_structure_run ⟨[], [["C:"]]⟩).output =
        (directories.take i).map (fun d => createdLine (splitPath base_path ++ splitPath d))
          ++ ["Error: " ++ "FileExistsError: C:"] := by
  have h := C5_output_format ⟨[], []⟩ ⟨[], []⟩ ⟨[], [["C:"]]⟩ "FileExistsError: C:"
    (by decide) (by decide) (by decide)
  exact ⟨h.1, h.2.2.2⟩

/-- C10: each script is deterministic and reads no input: its observable
result depends only on the initial filesystem, not on the argument vector or
the environment, so two runs of the same script from the same initial state
produce identical console output, exit behavior and final filesystem. -/
theorem C10_deterministic (fs : FS) (a₁ e₁ a₂ e₂ : List String) :
    create_dirs_main fs a₁ e₁ = create_dirs_main fs a₂ e₂ ∧
    create_structure_main fs a₁ e₁ = create_structure_main fs a₂ e₂ ∧
    create_test_dirs_main fs a₁ e₁ = create_test_dirs_main fs a₂ e₂ :=
  ⟨rfl, rfl, rfl⟩
